import Mathlib

/-!
Verification of the DMX-TRI discovery/dispatch engine (DmxTriWidget.cpp) and
of the DMX channel buffer, against the natural-language specification.

The engine is embedded shallowly: each C++ method of DmxTriWidget becomes a
Lean function from an explicit engine state to a new state plus a list of
observable outputs (frames sent to the widget, callback invocations).  Code
paths that are undefined behaviour in the C++ source (reading past a buffer,
calling front() on an empty queue, calling a NULL callback) are modelled by
returning none.
-/

namespace DmxTri

/-! ## Wire constants

Modelled from the spec: the header DmxTriWidget.h is not among the sources;
only the .cpp is.  The numeric values are chosen so that all command ids and
return codes are pairwise distinct and the NACK range
EC_UNKNOWN_PID .. EC_SUBDEVICE_UNKNOWN is exactly the contiguous run of the
ten codes enumerated, in order, by the switch in HandleRemoteRDMResponse. -/

def EXTENDED_COMMAND_LABEL : Nat := 0x58
def DISCOVER_AUTO_COMMAND_ID : Nat := 0x33
def DISCOVER_STATUS_COMMAND_ID : Nat := 0x34
def REMOTE_UID_COMMAND_ID : Nat := 0x35
def REMOTE_GET_COMMAND_ID : Nat := 0x38
def REMOTE_SET_COMMAND_ID : Nat := 0x39
def QUEUED_GET_COMMAND_ID : Nat := 0x3a
def SET_FILTER_COMMAND_ID : Nat := 0x3d

def EC_NO_ERROR : Nat := 0x00
def EC_CONSTRAINT : Nat := 0x01
def EC_RESPONSE_WAIT : Nat := 0x11
def EC_RESPONSE_MORE : Nat := 0x12
def EC_RESPONSE_MUTE : Nat := 0x1b
def EC_RESPONSE_DISCOVERY : Nat := 0x1c
def EC_RESPONSE_UNEXPECTED : Nat := 0x1d
def EC_UNKNOWN_PID : Nat := 0x20
def EC_FORMAT_ERROR : Nat := 0x21
def EC_HARDWARE_FAULT : Nat := 0x22
def EC_PROXY_REJECT : Nat := 0x23
def EC_WRITE_PROTECT : Nat := 0x24
def EC_UNSUPPORTED_COMMAND_CLASS : Nat := 0x25
def EC_OUT_OF_RANGE : Nat := 0x26
def EC_BUFFER_FULL : Nat := 0x27
def EC_FRAME_OVERFLOW : Nat := 0x28
def EC_SUBDEVICE_UNKNOWN : Nat := 0x29

/-- HandleMessage strips a 2-byte header (command id + return code). -/
def DATA_OFFSET : Nat := 2

/-- ola::rdm::UID::UID_SIZE (2 byte manufacturer id + 4 byte device id). -/
def UID_SIZE : Nat := 6

/-- ola::rdm::PID_QUEUED_MESSAGE (E1.20 standard parameter id). -/
def PID_QUEUED_MESSAGE : Nat := 0x20

/-! ## RDM value types

Modelled from the spec: UID, RDMRequest, RDMResponse and the response
combination rule are external collaborators (ola/rdm), not part of the two
source files; per the spec they provide manufacturer-id extraction, a
broadcast test, and a response-combination operation that merges chunked
responses. -/

def ALL_MANUFACTURERS : Nat := 0xffff
def ALL_DEVICES : Nat := 0xffffffff

structure UID where
  esta_id : Nat
  device_id : Nat
deriving DecidableEq, Repr

/-- UID::IsBroadcast: the device id is the all-devices value. -/
def UID.isBroadcast (u : UID) : Bool := u.device_id == ALL_DEVICES

/-- UID built from 6 raw bytes: big-endian esta id then big-endian device id. -/
def uidFromData (d : List Nat) : UID :=
  { esta_id := d.getD 0 0 * 256 + d.getD 1 0,
    device_id := ((d.getD 2 0 * 256 + d.getD 3 0) * 256 + d.getD 4 0) * 256 + d.getD 5 0 }

inductive RDMCommandClass where
  | GET_COMMAND : RDMCommandClass
  | SET_COMMAND : RDMCommandClass
  | DISCOVER_COMMAND : RDMCommandClass
deriving DecidableEq, Repr

structure RDMRequest where
  dest : UID
  sub_device : Nat
  param_id : Nat
  command_class : RDMCommandClass
  param_data : List Nat
deriving DecidableEq, Repr

structure RDMResponse where
  dest : UID
  param_id : Nat
  data : List Nat
  queued_count : Nat
deriving DecidableEq, Repr

/-- ola::rdm::GetResponseWithData: build a response for a request from the
raw reply payload (queued_count is the queued-message hack of the source). -/
def getResponseWithData (request : RDMRequest) (data : List Nat) (queued : Nat) :
    RDMResponse :=
  { dest := request.dest, param_id := request.param_id, data := data,
    queued_count := queued }

/-- ola::rdm::RDMResponse::CombineResponses.  Modelled from the spec: the
combination rule appends the new chunk to the partial response; the spec
presents it as total. -/
def combineResponses (r1 r2 : RDMResponse) : Option RDMResponse :=
  some { r1 with data := r1.data ++ r2.data }

inductive NackReason where
  | NR_UNKNOWN_PID
  | NR_FORMAT_ERROR
  | NR_HARDWARE_FAULT
  | NR_PROXY_REJECT
  | NR_WRITE_PROTECT
  | NR_UNSUPPORTED_COMMAND_CLASS
  | NR_DATA_OUT_OF_RANGE
  | NR_BUFFER_FULL
  | NR_PACKET_SIZE_UNSUPPORTED
  | NR_SUB_DEVICE_OUT_OF_RANGE
deriving DecidableEq, Repr

/-! ## Engine state and observable outputs -/

/-- An observable effect of the engine: a frame handed to
UsbWidget::SendMessage, a response or NACK handed to the RDM response
callback, or a UID set handed to the UID-set callback. -/
inductive Output where
  | sendFrame (label : Nat) (data : List Nat)
  | deliverResponse (r : RDMResponse)
  | deliverNack (request : RDMRequest) (reason : NackReason)
  | publishUIDs (uids : List UID)
deriving DecidableEq, Repr

/-- The mutable state of DmxTriWidget.  The timer handle is modelled by a
Bool (true = a repeating timeout is registered, false = INVALID_TIMEOUT);
the two callbacks are modelled by registration flags. -/
structure EngineState where
  rdm_timeout_id : Bool
  uid_count : Nat
  rdm_request_pending : Bool
  last_esta_id : Nat
  rdm_response : Option RDMResponse
  uid_index_map : List (UID × Nat)
  pending_requests : List RDMRequest
  has_uid_set_callback : Bool
  has_rdm_response_callback : Bool
deriving DecidableEq, Repr

/-- The state established by the DmxTriWidget constructor. -/
def initState : EngineState :=
  { rdm_timeout_id := false
    uid_count := 0
    rdm_request_pending := false
    last_esta_id := ALL_MANUFACTURERS
    rdm_response := none
    uid_index_map := []
    pending_requests := []
    has_uid_set_callback := false
    has_rdm_response_callback := false }

/-- std::map::find on the UID-to-index map. -/
def lookupUID : List (UID × Nat) → UID → Option Nat
  | [], _ => none
  | (k, v) :: rest, u => if k = u then some v else lookupUID rest u

/-- std::map::operator[] insertion (overwrites an existing key). -/
def insertUID : List (UID × Nat) → UID → Nat → List (UID × Nat)
  | [], u, v => [(u, v)]
  | (k, w) :: rest, u, v =>
      if k = u then (u, v) :: rest else (k, w) :: insertUID rest u v

/-- Big-endian encoding of a uint16 (HostToNetwork on the wire). -/
def encodeU16 (v : Nat) : List Nat := [v / 256 % 256, v % 256]

/-! ## Engine operations, one Lean function per C++ method -/

/-- DmxTriWidget::InDiscoveryMode. -/
def inDiscoveryMode (s : EngineState) : Bool :=
  s.rdm_timeout_id || (s.uid_count != 0)

/-- DmxTriWidget::StopDiscovery (also the body of Stop()). -/
def stopDiscovery (s : EngineState) : EngineState :=
  { s with rdm_timeout_id := false }

/-- DmxTriWidget::SendSetFilter: the SetFilter frame for an esta id. -/
def sendSetFilterFrame (esta_id : Nat) : Output :=
  Output.sendFrame EXTENDED_COMMAND_LABEL
    [SET_FILTER_COMMAND_ID, esta_id / 256 % 256, esta_id % 256]

/-- DmxTriWidget::DispatchQueuedGet. -/
def dispatchQueuedGet (s : EngineState) (request : RDMRequest) :
    EngineState × List Output :=
  match lookupUID s.uid_index_map request.dest with
  | none => (s, [])
  | some idx =>
      (s, [Output.sendFrame EXTENDED_COMMAND_LABEL
            [QUEUED_GET_COMMAND_ID, idx, request.param_data.getD 0 0]])

/-- DmxTriWidget::DispatchNextRequest, applied to the front request of the
pending FIFO (the C++ method re-reads front() itself; every call site holds
a non-empty queue).  Queued-message GETs are special-cased; a request that
is neither GET nor SET, or whose non-broadcast destination is missing from
the uid map, is logged and produces no frame. -/
def dispatchRequest (s : EngineState) (request : RDMRequest) :
    EngineState × List Output :=
  if request.param_id == PID_QUEUED_MESSAGE &&
     request.command_class == RDMCommandClass.GET_COMMAND then
    if request.param_data.length != 0 then
      dispatchQueuedGet s request
    else
      (s, [])
  else
    let command : Option Nat :=
      if request.command_class == RDMCommandClass.GET_COMMAND then
        some REMOTE_GET_COMMAND_ID
      else if request.command_class == RDMCommandClass.SET_COMMAND then
        some REMOTE_SET_COMMAND_ID
      else
        none
    match command with
    | none => (s, [])
    | some cid =>
        let index : Option Nat :=
          if request.dest.isBroadcast then some 0
          else lookupUID s.uid_index_map request.dest
        match index with
        | none => (s, [])
        | some idx =>
            (s, [Output.sendFrame EXTENDED_COMMAND_LABEL
                  (cid :: idx ::
                    (encodeU16 request.sub_device ++ encodeU16 request.param_id ++
                     request.param_data))])

/-- DmxTriWidget::MaybeSendRDMRequest. -/
def maybeSendRDMRequest (s : EngineState) : EngineState × List Output :=
  if inDiscoveryMode s || s.pending_requests.isEmpty || s.rdm_request_pending then
    (s, [])
  else
    match s.pending_requests with
    | [] => (s, [])
    | request :: _ =>
        let s1 := { s with rdm_request_pending := true }
        if request.dest.isBroadcast &&
           (request.dest.esta_id != s1.last_esta_id) then
          (s1, [sendSetFilterFrame request.dest.esta_id])
        else
          dispatchRequest s1 request

/-- The common tail of HandleRemoteRDMResponse / HandleSetFilterResponse
failure: pop the head request, clear the in-flight flag, and try to send
the next request. -/
def retireHeadRequest (s : EngineState) (rest : List RDMRequest)
    (outs : List Output) : EngineState × List Output :=
  let s1 := { s with pending_requests := rest, rdm_request_pending := false }
  let r := maybeSendRDMRequest s1
  (r.1, outs ++ r.2)

/-- DmxTriWidget::HandleRDMRequest.  The Bool result is the return value
(false = the request was refused and not queued). -/
def handleRDMRequest (s : EngineState) (request : RDMRequest) :
    EngineState × List Output × Bool :=
  if !request.dest.isBroadcast && !inDiscoveryMode s &&
     (lookupUID s.uid_index_map request.dest).isNone then
    (s, [], false)
  else
    let s1 := { s with pending_requests := s.pending_requests ++ [request] }
    let r := maybeSendRDMRequest s1
    (r.1, r.2, true)

/-- DmxTriWidget::RunRDMDiscovery (the transport send is modelled as always
accepted, so the repeating status timer is registered). -/
def runRDMDiscovery (s : EngineState) : EngineState × List Output :=
  if inDiscoveryMode s then (s, [])
  else
    ({ s with rdm_timeout_id := true },
     [Output.sendFrame EXTENDED_COMMAND_LABEL [DISCOVER_AUTO_COMMAND_ID]])

/-- DmxTriWidget::CheckDiscoveryStatus, fired by the repeating timer (which
only fires while registered). -/
def checkDiscoveryStatus (s : EngineState) : EngineState × List Output :=
  if s.rdm_timeout_id then
    (s, [Output.sendFrame EXTENDED_COMMAND_LABEL [DISCOVER_STATUS_COMMAND_ID]])
  else
    (s, [])

/-- DmxTriWidget::FetchNextUID. -/
def fetchNextUID (s : EngineState) : EngineState × List Output :=
  if s.uid_count == 0 then (s, [])
  else
    (s, [Output.sendFrame EXTENDED_COMMAND_LABEL
          [REMOTE_UID_COMMAND_ID, s.uid_count]])

/-- DmxTriWidget::SendUIDUpdate. -/
def sendUIDUpdate (s : EngineState) : List Output :=
  if s.has_uid_set_callback then
    [Output.publishUIDs (s.uid_index_map.map Prod.fst)]
  else
    []

/-- DmxTriWidget::HandleDiscoveryAutoResponse. -/
def handleDiscoveryAutoResponse (s : EngineState) (return_code : Nat) :
    EngineState × List Output :=
  if return_code != EC_NO_ERROR then (stopDiscovery s, []) else (s, [])

/-- The part of DmxTriWidget::HandleDiscoverStatResponse after the
return-code switch.  The source guards only length < 1 and then reads
data[1]; a 1-byte payload therefore reads one byte out of bounds, modelled
as none. -/
def discoverStatBody (s : EngineState) (data : List Nat) :
    Option (EngineState × List Output) :=
  if data.length < 1 then
    some (s, [])
  else
    match data.get? 1 with
    | none => none
    | some notDone =>
        if notDone == 0 then
          let s1 := stopDiscovery s
          let s2 := { s1 with uid_count := data.getD 0 0, uid_index_map := [] }
          if s2.uid_count != 0 then some (fetchNextUID s2) else some (s2, [])
        else
          some (s, [])

/-- DmxTriWidget::HandleDiscoverStatResponse. -/
def handleDiscoverStatResponse (s : EngineState) (return_code : Nat)
    (data : List Nat) : Option (EngineState × List Output) :=
  if return_code == EC_NO_ERROR then
    discoverStatBody s data
  else if return_code == EC_RESPONSE_MUTE then
    some (stopDiscovery s, [])
  else if return_code == EC_RESPONSE_DISCOVERY then
    some (stopDiscovery s, [])
  else if return_code == EC_RESPONSE_UNEXPECTED then
    discoverStatBody s data
  else
    some (stopDiscovery s, [])

/-- DmxTriWidget::HandleRemoteUIDResponse. -/
def handleRemoteUIDResponse (s : EngineState) (return_code : Nat)
    (data : List Nat) : EngineState × List Output :=
  if s.uid_count == 0 then
    (s, [])
  else
    let s1 :=
      if return_code == EC_NO_ERROR then
        if data.length < UID_SIZE then s
        else
          { s with uid_index_map :=
              insertUID s.uid_index_map (uidFromData data) s.uid_count }
      else
        s
    let s2 := { s1 with uid_count := s1.uid_count - 1 }
    if s2.uid_count != 0 then
      fetchNextUID s2
    else
      let pub := sendUIDUpdate s2
      let r := maybeSendRDMRequest s2
      (r.1, pub ++ r.2)

/-- The switch mapping NACK-range return codes to RDM NACK reasons (the
reason variable is initialised to NR_UNKNOWN_PID in the source). -/
def nackReasonFor (return_code : Nat) : NackReason :=
  if return_code == EC_UNKNOWN_PID then NackReason.NR_UNKNOWN_PID
  else if return_code == EC_FORMAT_ERROR then NackReason.NR_FORMAT_ERROR
  else if return_code == EC_HARDWARE_FAULT then NackReason.NR_HARDWARE_FAULT
  else if return_code == EC_PROXY_REJECT then NackReason.NR_PROXY_REJECT
  else if return_code == EC_WRITE_PROTECT then NackReason.NR_WRITE_PROTECT
  else if return_code == EC_UNSUPPORTED_COMMAND_CLASS then
    NackReason.NR_UNSUPPORTED_COMMAND_CLASS
  else if return_code == EC_OUT_OF_RANGE then NackReason.NR_DATA_OUT_OF_RANGE
  else if return_code == EC_BUFFER_FULL then NackReason.NR_BUFFER_FULL
  else if return_code == EC_FRAME_OVERFLOW then
    NackReason.NR_PACKET_SIZE_UNSUPPORTED
  else if return_code == EC_SUBDEVICE_UNKNOWN then
    NackReason.NR_SUB_DEVICE_OUT_OF_RANGE
  else NackReason.NR_UNKNOWN_PID

/-- DmxTriWidget::HandleRemoteRDMResponse.  front() on an empty FIFO is
undefined behaviour (none); so is the unguarded call of the response
callback in the NACK branch when no callback is registered. -/
def handleRemoteRDMResponse (s : EngineState) (return_code : Nat)
    (data : List Nat) : Option (EngineState × List Output) :=
  match s.pending_requests with
  | [] => none
  | request :: rest =>
      if return_code == EC_NO_ERROR || return_code == EC_RESPONSE_WAIT ||
         return_code == EC_RESPONSE_MORE then
        let response := getResponseWithData request data
          (if return_code == EC_RESPONSE_WAIT then 1 else 0)
        let combined : Option RDMResponse :=
          match s.rdm_response with
          | some prev => combineResponses prev response
          | none => some response
        let s1 := { s with rdm_response := combined }
        match combined with
        | some resp =>
            if return_code == EC_RESPONSE_MORE then
              some (dispatchRequest s1 request)
            else
              let outs :=
                if s1.has_rdm_response_callback then
                  [Output.deliverResponse resp]
                else
                  []
              some (retireHeadRequest { s1 with rdm_response := none } rest outs)
        | none =>
            some (retireHeadRequest s1 rest [])
      else if EC_UNKNOWN_PID ≤ return_code &&
              return_code ≤ EC_SUBDEVICE_UNKNOWN then
        let s1 := { s with rdm_response := none }
        if s1.has_rdm_response_callback then
          some (retireHeadRequest s1 rest
            [Output.deliverNack request (nackReasonFor return_code)])
        else
          none
      else
        some (retireHeadRequest { s with rdm_response := none } rest [])

/-- DmxTriWidget::HandleSetFilterResponse.  Both branches read front() of
the pending FIFO unconditionally; an empty FIFO is undefined behaviour. -/
def handleSetFilterResponse (s : EngineState) (return_code : Nat) :
    Option (EngineState × List Output) :=
  if return_code == EC_NO_ERROR then
    match s.pending_requests with
    | [] => none
    | request :: _ =>
        let s1 := { s with last_esta_id := request.dest.esta_id }
        some (dispatchRequest s1 request)
  else
    match s.pending_requests with
    | [] => none
    | _ :: rest =>
        some (retireHeadRequest s rest [])

/-- DmxTriWidget::HandleMessage: decode the 2-byte extended-command header
and dispatch to the per-command handler.  Frames shorter than the header
are logged and dropped; the queued-get handler is an unimplemented no-op. -/
def handleMessage (s : EngineState) (label : Nat) (data : List Nat) :
    Option (EngineState × List Output) :=
  if label == EXTENDED_COMMAND_LABEL then
    if data.length < DATA_OFFSET then
      some (s, [])
    else
      let command_id := data.getD 0 0
      let return_code := data.getD 1 0
      let payload := data.drop DATA_OFFSET
      if command_id == DISCOVER_AUTO_COMMAND_ID then
        some (handleDiscoveryAutoResponse s return_code)
      else if command_id == DISCOVER_STATUS_COMMAND_ID then
        handleDiscoverStatResponse s return_code payload
      else if command_id == REMOTE_UID_COMMAND_ID then
        some (handleRemoteUIDResponse s return_code payload)
      else if command_id == REMOTE_GET_COMMAND_ID then
        handleRemoteRDMResponse s return_code payload
      else if command_id == REMOTE_SET_COMMAND_ID then
        handleRemoteRDMResponse s return_code payload
      else if command_id == QUEUED_GET_COMMAND_ID then
        some (s, [])
      else if command_id == SET_FILTER_COMMAND_ID then
        handleSetFilterResponse s return_code
      else
        some (s, [])
  else
    some (s, [])

/-! ## Event-level transition system -/

/-- An external stimulus delivered to the engine by its single-threaded
reactor: a caller enqueueing a request or starting discovery, the repeating
discovery timer firing, an inbound widget frame, or (re)registration of one
of the two callbacks. -/
inductive Event where
  | enqueue (request : RDMRequest)
  | runDiscovery
  | timerFire
  | frame (label : Nat) (data : List Nat)
  | setUIDListCallback (present : Bool)
  | setRDMResponseCallback (present : Bool)

/-- One reactor callback: none models a step that runs into undefined
behaviour in the source. -/
def engineStep (s : EngineState) : Event → Option (EngineState × List Output)
  | Event.enqueue request =>
      let r := handleRDMRequest s request
      some (r.1, r.2.1)
  | Event.runDiscovery => some (runRDMDiscovery s)
  | Event.timerFire => some (checkDiscoveryStatus s)
  | Event.frame label data => handleMessage s label data
  | Event.setUIDListCallback b => some ({ s with has_uid_set_callback := b }, [])
  | Event.setRDMResponseCallback b =>
      some ({ s with has_rdm_response_callback := b }, [])

/-- States the engine can actually be in: the constructor state and
everything reachable from it through defined reactor callbacks. -/
inductive Reachable : EngineState → Prop where
  | init : Reachable initState
  | step : ∀ s e s2 outs, Reachable s → engineStep s e = some (s2, outs) →
      Reachable s2

/-! ## Observation helpers -/

/-- Number of RemoteUID fetch frames in an output list. -/
def countFetchUID (outs : List Output) : Nat :=
  outs.countP (fun o =>
    match o with
    | Output.sendFrame _ (cid :: _) => cid == REMOTE_UID_COMMAND_ID
    | _ => false)

/-- Number of UID-set notifications in an output list. -/
def countUIDPublish (outs : List Output) : Nat :=
  outs.countP (fun o =>
    match o with
    | Output.publishUIDs _ => true
    | _ => false)

/-- True for outputs that invoke the RDM response callback. -/
def isResponseDelivery : Output → Bool
  | Output.deliverResponse _ => true
  | Output.deliverNack _ _ => true
  | _ => false

/-- Feed a list of (return code, payload) RemoteUID replies to the engine. -/
def processUIDReplies : EngineState → List (Nat × List Nat) →
    EngineState × List Output
  | s, [] => (s, [])
  | s, (rc, d) :: rest =>
      let r1 := handleRemoteUIDResponse s rc d
      let r2 := processUIDReplies r1.1 rest
      (r2.1, r1.2 ++ r2.2)

/-- The response the engine holds after merging a reply chunk for the head
request into the reassembly buffer (first chunk seeds the buffer, later
chunks are appended by the combination rule). -/
def mergedResponse (s : EngineState) (request : RDMRequest) (data : List Nat)
    (return_code : Nat) : RDMResponse :=
  let response := getResponseWithData request data
    (if return_code == EC_RESPONSE_WAIT then 1 else 0)
  match s.rdm_response with
  | some prev => { prev with data := prev.data ++ response.data }
  | none => response

/-! ## Concrete fixtures for witnesses and counterexamples -/

/-- A GET request to a plain (non-broadcast) UID. -/
def reqA : RDMRequest :=
  { dest := { esta_id := 0x5253, device_id := 0x100 }, sub_device := 1,
    param_id := 0x0060, command_class := RDMCommandClass.GET_COMMAND,
    param_data := [] }

/-- A SET request to a manufacturer broadcast UID. -/
def reqBcast : RDMRequest :=
  { dest := { esta_id := 0x7a70, device_id := ALL_DEVICES }, sub_device := 0,
    param_id := 0x1000, command_class := RDMCommandClass.SET_COMMAND,
    param_data := [3] }

/-- One request in flight, response callback registered. -/
def sOneInFlight : EngineState :=
  { initState with
    pending_requests := [reqBcast],
    rdm_request_pending := true,
    has_rdm_response_callback := true }

/-- One request in flight, no response callback registered. -/
def sOneInFlightNoCb : EngineState :=
  { initState with pending_requests := [reqBcast], rdm_request_pending := true }

/-- One request in flight with a partially reassembled response pending. -/
def sOneInFlightBuf : EngineState :=
  { sOneInFlight with
    rdm_response :=
      some { dest := reqBcast.dest, param_id := reqBcast.param_id,
             data := [1], queued_count := 0 } }

/-- The engine after the in-flight request has been retired. -/
def sRetired : EngineState :=
  { initState with has_rdm_response_callback := true }

/-- An idle engine with a UID-set callback registered. -/
def sDiscovery : EngineState :=
  { initState with has_uid_set_callback := true }

/-- The engine state after merging a reply chunk into the reassembly
buffer (only the buffer changes). -/
def withMerged (s : EngineState) (request : RDMRequest) (data : List Nat)
    (return_code : Nat) : EngineState :=
  { s with
    rdm_response := some (mergedResponse s request data return_code) }

end DmxTri

namespace DmxBuf

/-!
## DMX channel buffer

Modelled from the spec: DmxBuffer.cpp is not among the sources (only its
unit test DmxBufferTest.cpp is), so the buffer operations below follow the
spec's operation contracts in section 4.1 — including the mod-256 token
parse the spec's own section 8/9 records as the observed behaviour — and
are checked against the concrete vectors of the in-repository test.
-/

def DMX_UNIVERSE_SIZE : Nat := 512

/-- A DmxBuffer handle: whether backing storage has ever been allocated
(m_data != NULL, i.e. the buffer has held data), the valid length, and the
backing bytes.  Bytes past valid_length are unspecified padding. -/
structure DmxBuffer where
  init : Bool
  valid_length : Nat
  raw : List Nat
deriving DecidableEq, Repr

/-- DmxBuffer::Size. -/
def DmxBuffer.Size (b : DmxBuffer) : Nat := b.valid_length

/-- The observable value of a buffer: exactly the valid prefix. -/
def DmxBuffer.contents (b : DmxBuffer) : List Nat := b.raw.take b.valid_length

/-- A default-constructed buffer that has never held any data. -/
def emptyDmxBuffer : DmxBuffer := { init := false, valid_length := 0, raw := [] }

/-- DmxBuffer::Blackout: full universe of zeros; always succeeds. -/
def DmxBuffer.Blackout (_ : DmxBuffer) : DmxBuffer × Bool :=
  ({ init := true, valid_length := DMX_UNIVERSE_SIZE,
     raw := List.replicate DMX_UNIVERSE_SIZE 0 }, true)

/-- DmxBuffer::Reset: valid length zero, storage kept. -/
def DmxBuffer.Reset (b : DmxBuffer) : DmxBuffer :=
  { b with valid_length := 0 }

/-- Overwrite raw[offset ... offset + bytes.length) with the given bytes. -/
def spliceBytes (raw : List Nat) (offset : Nat) (bytes : List Nat) : List Nat :=
  raw.take offset ++ bytes ++ raw.drop (offset + bytes.length)

/-- DmxBuffer::SetRange.  Fails when the source is absent, the offset is at
or past the capacity, or the offset is past the current valid boundary.  A
successful write on a buffer that has never held data first performs a full
blackout (so its final size is the capacity); otherwise it copies
min(count, capacity - offset) bytes and extends valid_length to
max(valid_length, offset + copied). -/
def DmxBuffer.SetRange (b : DmxBuffer) (offset : Nat) (src : Option (List Nat))
    (count : Nat) : DmxBuffer × Bool :=
  match src with
  | none => (b, false)
  | some bytes =>
      if DMX_UNIVERSE_SIZE ≤ offset then (b, false)
      else if b.valid_length < offset then (b, false)
      else
        let b1 := if b.init then b else (DmxBuffer.Blackout b).1
        let copied := min count (DMX_UNIVERSE_SIZE - offset)
        ({ init := true,
           valid_length :=
             min DMX_UNIVERSE_SIZE (max b1.valid_length (offset + copied)),
           raw := spliceBytes b1.raw offset (bytes.take copied) }, true)

/-- Strip leading and trailing whitespace of the whole input. -/
def trimSpaces (cs : List Char) : List Char :=
  ((cs.dropWhile Char.isWhitespace).reverse.dropWhile Char.isWhitespace).reverse

/-- Split on commas, keeping empty tokens. -/
def splitComma : List Char → List (List Char)
  | [] => [[]]
  | c :: rest =>
      if c = ',' then [] :: splitComma rest
      else
        match splitComma rest with
        | [] => [[c]]
        | t :: ts => (c :: t) :: ts

/-- Accumulate a decimal digit string. -/
def digitsToNat : List Char → Nat → Nat
  | [], acc => acc
  | c :: rest, acc => digitsToNat rest (acc * 10 + (c.toNat - 48))

/-- atoi-then-store-into-uint8 semantics for one token: skip leading
whitespace, read the leading run of digits (none parses as 0), and keep the
low byte of the value. -/
def parseTokenByte (t : List Char) : Nat :=
  let t1 := t.dropWhile Char.isWhitespace
  digitsToNat (t1.takeWhile Char.isDigit) 0 % 256

/-- DmxBuffer::SetFromString: trim, split on commas, parse each token into
one byte (at most a universe of them); the empty string yields an empty
buffer; the call always succeeds. -/
def DmxBuffer.SetFromString (b : DmxBuffer) (input : String) :
    DmxBuffer × Bool :=
  let cs := trimSpaces input.toList
  if cs.isEmpty then
    ({ init := true, valid_length := 0, raw := b.raw }, true)
  else
    let vals := ((splitComma cs).map parseTokenByte).take DMX_UNIVERSE_SIZE
    ({ init := true, valid_length := vals.length, raw := vals }, true)

end DmxBuf

namespace DmxTri

/-! ## Basic shape lemmas about the engine operations -/

theorem dispatchQueuedGet_fst (s : EngineState) (r : RDMRequest) :
    (dispatchQueuedGet s r).1 = s := by
  unfold dispatchQueuedGet
  split <;> rfl

theorem dispatchRequest_fst (s : EngineState) (r : RDMRequest) :
    (dispatchRequest s r).1 = s := by
  unfold dispatchRequest
  repeat' split
  all_goals first
    | rfl
    | exact dispatchQueuedGet_fst s r
    | (dsimp only; split <;> rfl)

theorem fetchNextUID_fst (s : EngineState) : (fetchNextUID s).1 = s := by
  unfold fetchNextUID
  split <;> rfl

/-- MaybeSendRDMRequest never touches the pending FIFO. -/
theorem maybeSend_pending (s : EngineState) :
    (maybeSendRDMRequest s).1.pending_requests = s.pending_requests := by
  unfold maybeSendRDMRequest
  split
  · rfl
  · next hg =>
      cases hp : s.pending_requests with
      | nil => simp [hp]
      | cons r l =>
          dsimp only
          split <;> simp [dispatchRequest_fst, hp]

/-- MaybeSendRDMRequest never touches the discovery timer handle. -/
theorem maybeSend_timer (s : EngineState) :
    (maybeSendRDMRequest s).1.rdm_timeout_id = s.rdm_timeout_id := by
  unfold maybeSendRDMRequest
  split
  · rfl
  · next hg =>
      cases hp : s.pending_requests with
      | nil => rfl
      | cons r l =>
          dsimp only
          split <;> simp [dispatchRequest_fst]

/-- MaybeSendRDMRequest never touches the discovery countdown. -/
theorem maybeSend_uid_count (s : EngineState) :
    (maybeSendRDMRequest s).1.uid_count = s.uid_count := by
  unfold maybeSendRDMRequest
  split
  · rfl
  · next hg =>
      cases hp : s.pending_requests with
      | nil => rfl
      | cons r l =>
          dsimp only
          split <;> simp [dispatchRequest_fst]

/-- MaybeSendRDMRequest sets the in-flight flag exactly when discovery is
idle, the FIFO is non-empty and the flag was clear. -/
theorem maybeSend_flag (s : EngineState) :
    (maybeSendRDMRequest s).1.rdm_request_pending =
      (s.rdm_request_pending ||
        (!inDiscoveryMode s && !s.pending_requests.isEmpty)) := by
  unfold maybeSendRDMRequest
  split
  · next hg =>
      simp only [Bool.or_eq_true] at hg
      rcases hg with (hg | hg) | hg <;> simp [hg]
  · next hg =>
      simp only [Bool.or_eq_true, not_or] at hg
      obtain ⟨⟨hd, hp⟩, hf⟩ := hg
      cases hpl : s.pending_requests with
      | nil => simp [hpl] at hp
      | cons r l =>
          dsimp only
          split <;>
            simp_all [dispatchRequest_fst, Bool.not_eq_true]

/-! ## Output-shape lemmas -/

theorem dispatchQueuedGet_outs (s : EngineState) (r : RDMRequest) :
    countFetchUID (dispatchQueuedGet s r).2 = 0 ∧
    countUIDPublish (dispatchQueuedGet s r).2 = 0 := by
  unfold dispatchQueuedGet
  split <;>
    simp [countFetchUID, countUIDPublish, List.countP_cons, List.countP_nil,
      QUEUED_GET_COMMAND_ID, REMOTE_UID_COMMAND_ID]

theorem dispatchRequest_outs (s : EngineState) (r : RDMRequest) :
    countFetchUID (dispatchRequest s r).2 = 0 ∧
    countUIDPublish (dispatchRequest s r).2 = 0 := by
  unfold dispatchRequest
  repeat' split
  all_goals first
    | exact dispatchQueuedGet_outs s r
    | (dsimp only
       repeat' split
       all_goals simp [countFetchUID, countUIDPublish, List.countP_cons,
         List.countP_nil, REMOTE_GET_COMMAND_ID, REMOTE_SET_COMMAND_ID,
         REMOTE_UID_COMMAND_ID])

theorem maybeSend_outs (s : EngineState) :
    countFetchUID (maybeSendRDMRequest s).2 = 0 ∧
    countUIDPublish (maybeSendRDMRequest s).2 = 0 := by
  unfold maybeSendRDMRequest
  split
  · simp [countFetchUID, countUIDPublish]
  · next hg =>
      cases hp : s.pending_requests with
      | nil => simp [countFetchUID, countUIDPublish]
      | cons r l =>
          dsimp only
          split
          · simp [countFetchUID, countUIDPublish, List.countP_cons,
              List.countP_nil, sendSetFilterFrame, SET_FILTER_COMMAND_ID,
              REMOTE_UID_COMMAND_ID]
          · exact dispatchRequest_outs _ r

/-! ## Preservation of: the in-flight flag implies a non-empty FIFO -/

theorem maybeSend_inv (s : EngineState)
    (hs : s.rdm_request_pending = true → s.pending_requests ≠ []) :
    (maybeSendRDMRequest s).1.rdm_request_pending = true →
    (maybeSendRDMRequest s).1.pending_requests ≠ [] := by
  intro hf
  rw [maybeSend_flag] at hf
  rw [maybeSend_pending]
  cases hflag : s.rdm_request_pending with
  | true => exact hs hflag
  | false =>
      rw [hflag] at hf
      simp only [Bool.false_or, Bool.and_eq_true] at hf
      intro hnil
      rw [hnil] at hf
      simp at hf

theorem retireHead_inv (s : EngineState) (rest : List RDMRequest)
    (outs : List Output) :
    (retireHeadRequest s rest outs).1.rdm_request_pending = true →
    (retireHeadRequest s rest outs).1.pending_requests ≠ [] := by
  unfold retireHeadRequest
  dsimp only
  exact maybeSend_inv _ (fun h => nomatch h)

theorem handleRemoteRDM_inv (s : EngineState) (rc : Nat) (d : List Nat)
    (s2 : EngineState) (outs : List Output)
    (h : handleRemoteRDMResponse s rc d = some (s2, outs)) :
    s2.rdm_request_pending = true → s2.pending_requests ≠ [] := by
  unfold handleRemoteRDMResponse at h
  cases hq : s.pending_requests with
  | nil => rw [hq] at h; exact absurd h (by simp)
  | cons request rest =>
      rw [hq] at h
      dsimp only at h
      repeat' split at h
      all_goals
        first
        | exact Option.noConfusion h
        | (replace h := Option.some.inj h
           have h1 := congrArg Prod.fst h
           dsimp only at h1
           rw [← h1]
           first
           | exact retireHead_inv _ _ _
           | (rw [dispatchRequest_fst]; intro _; simp))

theorem handleSetFilter_inv (s : EngineState) (rc : Nat) (s2 : EngineState)
    (outs : List Output) (h : handleSetFilterResponse s rc = some (s2, outs)) :
    s2.rdm_request_pending = true → s2.pending_requests ≠ [] := by
  unfold handleSetFilterResponse at h
  split at h
  · split at h
    · exact Option.noConfusion h
    · rename_i request tail heq
      replace h := Option.some.inj h
      have h1 := congrArg Prod.fst h
      dsimp only at h1
      rw [← h1, dispatchRequest_fst]
      intro _
      simp [heq]
  · split at h
    · exact Option.noConfusion h
    · replace h := Option.some.inj h
      have h1 := congrArg Prod.fst h
      dsimp only at h1
      rw [← h1]
      exact retireHead_inv _ _ _

theorem discoverStat_preserves (s : EngineState) (rc : Nat) (d : List Nat)
    (s2 : EngineState) (outs : List Output)
    (h : handleDiscoverStatResponse s rc d = some (s2, outs)) :
    s2.pending_requests = s.pending_requests ∧
    s2.rdm_request_pending = s.rdm_request_pending := by
  unfold handleDiscoverStatResponse discoverStatBody at h
  dsimp only at h
  repeat' split at h
  all_goals first
    | exact Option.noConfusion h
    | (replace h := Option.some.inj h
       have h1 := congrArg Prod.fst h
       dsimp only at h1
       rw [← h1]
       simp [stopDiscovery, fetchNextUID_fst])

theorem handleRemoteUID_inv (s : EngineState) (rc : Nat) (d : List Nat)
    (hs : s.rdm_request_pending = true → s.pending_requests ≠ []) :
    (handleRemoteUIDResponse s rc d).1.rdm_request_pending = true →
    (handleRemoteUIDResponse s rc d).1.pending_requests ≠ [] := by
  unfold handleRemoteUIDResponse
  split
  · exact hs
  · dsimp only
    repeat' split
    all_goals first
      | (rw [fetchNextUID_fst]; exact hs)
      | (dsimp only; exact maybeSend_inv _ hs)

/-- Every defined reactor step preserves: if the in-flight flag is set then
the pending FIFO is non-empty. -/
theorem engineStep_inv (s : EngineState) (e : Event) (s2 : EngineState)
    (outs : List Output) (h : engineStep s e = some (s2, outs))
    (hs : s.rdm_request_pending = true → s.pending_requests ≠ []) :
    s2.rdm_request_pending = true → s2.pending_requests ≠ [] := by
  cases e with
  | enqueue r =>
      replace h := Option.some.inj h
      have h1 := congrArg Prod.fst h
      dsimp only at h1
      rw [← h1]
      unfold handleRDMRequest
      split
      · exact hs
      · dsimp only
        exact maybeSend_inv _ (fun _ => by simp)
  | runDiscovery =>
      replace h := Option.some.inj h
      have h1 := congrArg Prod.fst h
      dsimp only at h1
      rw [← h1]
      unfold runRDMDiscovery
      split
      · exact hs
      · exact hs
  | timerFire =>
      replace h := Option.some.inj h
      have h1 := congrArg Prod.fst h
      dsimp only at h1
      rw [← h1]
      unfold checkDiscoveryStatus
      split
      · exact hs
      · exact hs
  | setUIDListCallback b =>
      replace h := Option.some.inj h
      have h1 := congrArg Prod.fst h
      dsimp only at h1
      rw [← h1]
      exact hs
  | setRDMResponseCallback b =>
      replace h := Option.some.inj h
      have h1 := congrArg Prod.fst h
      dsimp only at h1
      rw [← h1]
      exact hs
  | frame label d =>
      replace h : handleMessage s label d = some (s2, outs) := h
      unfold handleMessage at h
      dsimp only at h
      repeat' split at h
      all_goals first
        | exact handleRemoteRDM_inv _ _ _ _ _ h
        | exact handleSetFilter_inv _ _ _ _ h
        | (have hp := discoverStat_preserves _ _ _ _ _ h
           rw [hp.2, hp.1]
           exact hs)
        | (replace h := Option.some.inj h
           have h1 := congrArg Prod.fst h
           dsimp only at h1
           rw [← h1]
           first
             | exact hs
             | (unfold handleDiscoveryAutoResponse
                split
                · exact hs
                · exact hs)
             | exact handleRemoteUID_inv _ _ _ hs)

/-- In every reachable engine state, a set in-flight flag guarantees a
non-empty pending FIFO. -/
theorem reachable_flag_nonempty (s : EngineState) (h : Reachable s) :
    s.rdm_request_pending = true → s.pending_requests ≠ [] := by
  induction h with
  | init => intro hf; exact absurd hf (by simp [initState])
  | step s e s2 outs hr hstep ih => exact engineStep_inv s e s2 outs hstep ih

/-! ## The discovery UID-fetch cycle -/

theorem countFetchUID_append (a b : List Output) :
    countFetchUID (a ++ b) = countFetchUID a + countFetchUID b := by
  simp [countFetchUID, List.countP_append]

theorem countUIDPublish_append (a b : List Output) :
    countUIDPublish (a ++ b) = countUIDPublish a + countUIDPublish b := by
  simp [countUIDPublish, List.countP_append]

theorem sendUIDUpdate_counts (s : EngineState) :
    countFetchUID (sendUIDUpdate s) = 0 ∧
    countUIDPublish (sendUIDUpdate s) =
      (if s.has_uid_set_callback then 1 else 0) := by
  unfold sendUIDUpdate
  split <;>
    simp_all [countFetchUID, countUIDPublish, List.countP_cons, List.countP_nil]

/-- One RemoteUID reply while the countdown is positive: the uid map is
possibly extended, the countdown drops by one, and the engine either
fetches the next index or (at zero) publishes the UID set and resumes
dispatch. -/
theorem handleRemoteUID_shape (t : EngineState) (rc : Nat) (d : List Nat)
    (h0 : (t.uid_count == 0) = false) :
    ∃ m : List (UID × Nat),
      handleRemoteUIDResponse t rc d =
        (if (t.uid_count - 1 != 0) = true then
          fetchNextUID { t with uid_index_map := m, uid_count := t.uid_count - 1 }
        else
          ((maybeSendRDMRequest
              { t with uid_index_map := m, uid_count := t.uid_count - 1 }).1,
            sendUIDUpdate
              { t with uid_index_map := m, uid_count := t.uid_count - 1 } ++
              (maybeSendRDMRequest
                { t with uid_index_map := m, uid_count := t.uid_count - 1 }).2)) := by
  by_cases h1 : (rc == EC_NO_ERROR) = true
  · by_cases h2 : d.length < UID_SIZE
    · exact ⟨t.uid_index_map, by simp [handleRemoteUIDResponse, h0, h1, h2]⟩
    · exact ⟨insertUID t.uid_index_map (uidFromData d) t.uid_count,
        by simp [handleRemoteUIDResponse, h0, h1, h2]⟩
  · exact ⟨t.uid_index_map, by simp [handleRemoteUIDResponse, h0, h1]⟩

/-- Feeding exactly as many RemoteUID replies as the countdown expects —
regardless of each reply's return code and payload — drives the countdown
to zero, emits one follow-up fetch per reply except the last, publishes the
UID set exactly once (when a UID-set callback is registered), leaves the
FIFO untouched, and finally resumes request dispatch. -/
theorem processUIDReplies_run :
    ∀ (rs : List (Nat × List Nat)) (t : EngineState),
      t.uid_count = rs.length → rs ≠ [] → t.rdm_timeout_id = false →
      (processUIDReplies t rs).1.uid_count = 0 ∧
      (processUIDReplies t rs).1.pending_requests = t.pending_requests ∧
      (processUIDReplies t rs).1.rdm_timeout_id = false ∧
      countFetchUID (processUIDReplies t rs).2 = rs.length - 1 ∧
      countUIDPublish (processUIDReplies t rs).2 =
        (if t.has_uid_set_callback then 1 else 0) ∧
      (t.rdm_request_pending = false → t.pending_requests ≠ [] →
        (processUIDReplies t rs).1.rdm_request_pending = true) := by
  intro rs
  induction rs with
  | nil => intro t hc hne ht; exact absurd rfl hne
  | cons head rest ih =>
      intro t hc hne ht
      obtain ⟨rc, d⟩ := head
      have hc2 : t.uid_count = rest.length + 1 := by simpa using hc
      have h0 : (t.uid_count == 0) = false := by simp [hc2]
      obtain ⟨m, hm⟩ := handleRemoteUID_shape t rc d h0
      have hstep : processUIDReplies t ((rc, d) :: rest) =
          (let r1 := handleRemoteUIDResponse t rc d
           let r2 := processUIDReplies r1.1 rest
           (r2.1, r1.2 ++ r2.2)) := rfl
      rw [hstep]
      dsimp only
      rw [hm]
      rcases Decidable.em (rest = []) with hrest | hrest
      · subst hrest
        simp only [List.length_nil] at hc2
        have hz : t.uid_count - 1 = 0 := by omega
        rw [hz]
        rw [if_neg (by decide)]
        dsimp only
        simp only [processUIDReplies]
        simp only [List.append_nil]
        refine ⟨?_, ?_, ?_, ?_, ?_, ?_⟩
        · rw [maybeSend_uid_count]
        · rw [maybeSend_pending]
        · rw [maybeSend_timer]; exact ht
        · rw [countFetchUID_append, (sendUIDUpdate_counts _).1,
            (maybeSend_outs _).1]
          simp
        · rw [countUIDPublish_append, (sendUIDUpdate_counts _).2,
            (maybeSend_outs _).2]
          simp
        · intro hf hp
          rw [maybeSend_flag]
          simp [inDiscoveryMode, ht, hf, hp, List.isEmpty_iff]
      · have hlen : rest.length ≠ 0 :=
          fun hzero => hrest (List.length_eq_zero.mp hzero)
        have hne0 : t.uid_count - 1 ≠ 0 := by omega
        have hpos : (t.uid_count - 1 != 0) = true := by simp [hne0]
        have hfetch : fetchNextUID
            { t with uid_index_map := m, uid_count := t.uid_count - 1 } =
            ({ t with uid_index_map := m, uid_count := t.uid_count - 1 },
             [Output.sendFrame EXTENDED_COMMAND_LABEL
               [REMOTE_UID_COMMAND_ID, t.uid_count - 1]]) := by
          simp [fetchNextUID, hne0]
        rw [if_pos hpos, hfetch]
        dsimp only
        have ih2 := ih { t with uid_index_map := m, uid_count := t.uid_count - 1 }
          (by show t.uid_count - 1 = rest.length; omega) hrest ht
        obtain ⟨i1, i2, i3, i4, i5, i6⟩ := ih2
        refine ⟨i1, i2, i3, ?_, ?_, ?_⟩
        · rw [countFetchUID_append, i4]
          simp only [countFetchUID, List.countP_cons, List.countP_nil]
          simp
          omega
        · rw [countUIDPublish_append, i5]
          simp [countUIDPublish, List.countP_cons, List.countP_nil]
        · intro hf hp
          exact i6 hf hp

/-! ## Further helper lemmas for the claim theorems -/

theorem maybeSend_noop (s : EngineState)
    (h : (inDiscoveryMode s || s.pending_requests.isEmpty ||
      s.rdm_request_pending) = true) :
    maybeSendRDMRequest s = (s, []) := by
  unfold maybeSendRDMRequest
  rw [if_pos h]

/-- MaybeSendRDMRequest never touches the reassembly buffer. -/
theorem maybeSend_response (s : EngineState) :
    (maybeSendRDMRequest s).1.rdm_response = s.rdm_response := by
  unfold maybeSendRDMRequest
  split
  · rfl
  · next hg =>
      cases hp : s.pending_requests with
      | nil => rfl
      | cons r l =>
          dsimp only
          split <;> simp [dispatchRequest_fst]

theorem dispatchQueuedGet_len (s : EngineState) (r : RDMRequest) :
    (dispatchQueuedGet s r).2.length ≤ 1 := by
  unfold dispatchQueuedGet
  split <;> simp

theorem dispatchRequest_len (s : EngineState) (r : RDMRequest) :
    (dispatchRequest s r).2.length ≤ 1 := by
  unfold dispatchRequest
  repeat' split
  all_goals first
    | exact dispatchQueuedGet_len s r
    | (dsimp only
       repeat' split
       all_goals simp)

theorem maybeSend_len (s : EngineState) :
    (maybeSendRDMRequest s).2.length ≤ 1 := by
  unfold maybeSendRDMRequest
  split
  · simp
  · next hg =>
      cases hp : s.pending_requests with
      | nil => simp
      | cons r l =>
          dsimp only
          split
          · simp
          · exact dispatchRequest_len _ r

theorem dispatchQueuedGet_no_delivery (s : EngineState) (r : RDMRequest) :
    ((dispatchQueuedGet s r).2.all (fun o => !isResponseDelivery o)) = true := by
  unfold dispatchQueuedGet
  split <;> simp [isResponseDelivery]

theorem dispatchRequest_no_delivery (s : EngineState) (r : RDMRequest) :
    ((dispatchRequest s r).2.all (fun o => !isResponseDelivery o)) = true := by
  unfold dispatchRequest
  repeat' split
  all_goals first
    | exact dispatchQueuedGet_no_delivery s r
    | (dsimp only
       repeat' split
       all_goals simp [isResponseDelivery])

theorem maybeSend_no_delivery (s : EngineState) :
    ((maybeSendRDMRequest s).2.all (fun o => !isResponseDelivery o)) = true := by
  unfold maybeSendRDMRequest
  split
  · simp
  · next hg =>
      cases hp : s.pending_requests with
      | nil => simp
      | cons r l =>
          dsimp only
          split
          · simp [isResponseDelivery, sendSetFilterFrame]
          · exact dispatchRequest_no_delivery _ r

/-! ## Claim theorems -/

/-- Claim C1: at most one RDM request is ever in flight.
MaybeSendRDMRequest is a no-op whenever discovery is active, the pending
FIFO is empty, or the in-flight flag is already set; when none of these
hold the flag was necessarily clear (the previous transaction had been
retired), the send marks the flag, leaves the FIFO unchanged, and puts at
most one frame on the wire. -/
theorem dmxtri_single_request_in_flight (s : EngineState) :
    ((inDiscoveryMode s || s.pending_requests.isEmpty ||
        s.rdm_request_pending) = true →
      maybeSendRDMRequest s = (s, [])) ∧
    ((inDiscoveryMode s || s.pending_requests.isEmpty ||
        s.rdm_request_pending) = false →
      s.rdm_request_pending = false ∧
      (maybeSendRDMRequest s).1.rdm_request_pending = true ∧
      (maybeSendRDMRequest s).1.pending_requests = s.pending_requests ∧
      (maybeSendRDMRequest s).2.length ≤ 1) := by
  constructor
  · exact maybeSend_noop s
  · intro hg
    simp only [Bool.or_eq_false_iff] at hg
    obtain ⟨⟨hd, hp⟩, hf⟩ := hg
    refine ⟨hf, ?_, maybeSend_pending s, maybeSend_len s⟩
    rw [maybeSend_flag, hd, hp, hf]
    rfl

theorem dmxtri_single_request_in_flight_witness :
    (inDiscoveryMode initState || initState.pending_requests.isEmpty ||
      initState.rdm_request_pending) = true ∧
    maybeSendRDMRequest initState = (initState, []) :=
  ⟨by decide, (dmxtri_single_request_in_flight initState).1 (by decide)⟩

/-- Claim C3: a non-broadcast request whose destination UID is unknown is
refused outright (returns false, nothing queued) while discovery is idle;
while discovery is active the unknown-destination check is skipped and the
request is queued (returning true). -/
theorem dmxtri_enqueue_unknown_dest (s : EngineState) (request : RDMRequest) :
    (request.dest.isBroadcast = false → inDiscoveryMode s = false →
      lookupUID s.uid_index_map request.dest = none →
      handleRDMRequest s request = (s, [], false)) ∧
    (inDiscoveryMode s = true →
      handleRDMRequest s request =
        ({ s with pending_requests := s.pending_requests ++ [request] },
          [], true)) := by
  constructor
  · intro hb hd hl
    unfold handleRDMRequest
    rw [if_pos (by simp [hb, hd, hl])]
  · intro hd
    unfold handleRDMRequest
    rw [if_neg (by simp [hd])]
    dsimp only
    have hds : inDiscoveryMode
        { s with pending_requests := s.pending_requests ++ [request] } =
        true := hd
    rw [maybeSend_noop _ (by rw [hds]; rfl)]

theorem dmxtri_enqueue_unknown_dest_witness :
    reqA.dest.isBroadcast = false ∧
    inDiscoveryMode initState = false ∧
    lookupUID initState.uid_index_map reqA.dest = none ∧
    handleRDMRequest initState reqA = (initState, [], false) :=
  ⟨by decide, by decide, by decide,
    (dmxtri_enqueue_unknown_dest initState reqA).1 (by decide) (by decide)
      (by decide)⟩

/-- Claim C5 (code bug): for NACK-range reply codes the engine discards any
pending reassembly, synthesizes a NACK whose reason follows the 1:1 table,
delivers it and retires the request — but the source calls the response
callback without the NULL check it performs everywhere else, so with no
callback registered the same reply dereferences a NULL pointer (modelled
none).  The conjuncts evaluate the handler at one in-flight request: first
with no callback (crash), then the full reason table with a callback, and
finally a NACK arriving while a partial response was buffered (the buffer
is discarded: the retired state holds no reassembly). -/
theorem dmxtri_nack_mapping_and_null_callback :
    handleRemoteRDMResponse sOneInFlightNoCb EC_UNKNOWN_PID [] = none ∧
    handleRemoteRDMResponse sOneInFlight EC_UNKNOWN_PID [] =
      some (sRetired, [Output.deliverNack reqBcast NackReason.NR_UNKNOWN_PID]) ∧
    handleRemoteRDMResponse sOneInFlight EC_FORMAT_ERROR [] =
      some (sRetired, [Output.deliverNack reqBcast NackReason.NR_FORMAT_ERROR]) ∧
    handleRemoteRDMResponse sOneInFlight EC_HARDWARE_FAULT [] =
      some (sRetired,
        [Output.deliverNack reqBcast NackReason.NR_HARDWARE_FAULT]) ∧
    handleRemoteRDMResponse sOneInFlight EC_PROXY_REJECT [] =
      some (sRetired, [Output.deliverNack reqBcast NackReason.NR_PROXY_REJECT]) ∧
    handleRemoteRDMResponse sOneInFlight EC_WRITE_PROTECT [] =
      some (sRetired,
        [Output.deliverNack reqBcast NackReason.NR_WRITE_PROTECT]) ∧
    handleRemoteRDMResponse sOneInFlight EC_UNSUPPORTED_COMMAND_CLASS [] =
      some (sRetired,
        [Output.deliverNack reqBcast NackReason.NR_UNSUPPORTED_COMMAND_CLASS]) ∧
    handleRemoteRDMResponse sOneInFlight EC_OUT_OF_RANGE [] =
      some (sRetired,
        [Output.deliverNack reqBcast NackReason.NR_DATA_OUT_OF_RANGE]) ∧
    handleRemoteRDMResponse sOneInFlight EC_BUFFER_FULL [] =
      some (sRetired, [Output.deliverNack reqBcast NackReason.NR_BUFFER_FULL]) ∧
    handleRemoteRDMResponse sOneInFlight EC_FRAME_OVERFLOW [] =
      some (sRetired,
        [Output.deliverNack reqBcast NackReason.NR_PACKET_SIZE_UNSUPPORTED]) ∧
    handleRemoteRDMResponse sOneInFlight EC_SUBDEVICE_UNKNOWN [] =
      some (sRetired,
        [Output.deliverNack reqBcast NackReason.NR_SUB_DEVICE_OUT_OF_RANGE]) ∧
    handleRemoteRDMResponse sOneInFlightBuf EC_OUT_OF_RANGE [] =
      some (sRetired,
        [Output.deliverNack reqBcast NackReason.NR_DATA_OUT_OF_RANGE]) := by
  refine ⟨?_, ?_, ?_, ?_, ?_, ?_, ?_, ?_, ?_, ?_, ?_, ?_⟩ <;> decide

/-- Claim C7 (code bug): HandleMessage rejects extended-command frames
shorter than the 2-byte header without crashing, and a discovery-status
frame whose 2-byte payload is present is handled — but the source guards
the payload only with length < 1 before reading payload index 1, so a
discovery-status frame carrying exactly 1 payload byte reads out of bounds
(modelled none). -/
theorem dmxtri_short_frame_handling :
    handleMessage initState EXTENDED_COMMAND_LABEL [] = some (initState, []) ∧
    handleMessage initState EXTENDED_COMMAND_LABEL
      [DISCOVER_STATUS_COMMAND_ID] = some (initState, []) ∧
    handleMessage initState EXTENDED_COMMAND_LABEL
      [DISCOVER_STATUS_COMMAND_ID, EC_NO_ERROR] = some (initState, []) ∧
    handleMessage initState EXTENDED_COMMAND_LABEL
      [DISCOVER_STATUS_COMMAND_ID, EC_NO_ERROR, 2, 1] = some (initState, []) ∧
    handleMessage initState EXTENDED_COMMAND_LABEL
      [DISCOVER_STATUS_COMMAND_ID, EC_NO_ERROR, 1] = none := by
  decide

/-- Claim C8 counterexample: the initial state is reachable and has an
empty FIFO, yet the widget can deliver an unsolicited REMOTE_GET reply
frame there; processing it runs front() on the empty pending queue —
undefined behaviour, modelled as a crashed (none) step.  The claim that
such frames are processed only with a non-empty FIFO is therefore false. -/
theorem dmxtri_unsolicited_reply_hits_empty_front :
    Reachable initState ∧ initState.pending_requests = [] ∧
    engineStep initState
      (Event.frame EXTENDED_COMMAND_LABEL [REMOTE_GET_COMMAND_ID, EC_NO_ERROR])
      = none :=
  ⟨Reachable.init, rfl, by decide⟩

/-- Claim C8 (amended): the REMOTE_GET/REMOTE_SET and SET_FILTER reply
handlers read the front of the FIFO unconditionally, so they are
well-defined only when a request is in flight; the engine does guarantee
that in every reachable state a set in-flight flag implies a non-empty
FIFO (so replies to its own sends are safe), but an unsolicited such frame
arriving with an empty FIFO reaches the empty-queue front access. -/
theorem dmxtri_reply_front_access (s : EngineState) (h : Reachable s) :
    (s.rdm_request_pending = true → s.pending_requests ≠ []) ∧
    (s.pending_requests = [] → ∀ rc d,
      handleRemoteRDMResponse s rc d = none ∧
      handleSetFilterResponse s rc = none) := by
  refine ⟨reachable_flag_nonempty s h, ?_⟩
  intro hp rc d
  constructor
  · unfold handleRemoteRDMResponse
    rw [hp]
  · unfold handleSetFilterResponse
    rw [hp]
    split <;> rfl

theorem dmxtri_reply_front_access_witness :
    Reachable initState ∧
    ((initState.rdm_request_pending = true →
        initState.pending_requests ≠ []) ∧
      (initState.pending_requests = [] → ∀ rc d,
        handleRemoteRDMResponse initState rc d = none ∧
        handleSetFilterResponse initState rc = none)) :=
  ⟨Reachable.init, dmxtri_reply_front_access initState Reachable.init⟩

theorem dispatchRequest_eta (s : EngineState) (r : RDMRequest) :
    dispatchRequest s r = (s, (dispatchRequest s r).2) :=
  Prod.ext (dispatchRequest_fst s r) rfl

/-- Claim C4: a remote GET/SET reply with EC_RESPONSE_MORE merges the chunk
into the reassembly buffer and re-sends the identical request — the FIFO
and the in-flight flag are untouched (the returned state differs from the
input only in the reassembly buffer) and the frames emitted are exactly
those a dispatch of the same head request emits; EC_NO_ERROR and
EC_RESPONSE_WAIT deliver the combined response to the response callback,
clear the reassembly buffer, and retire the head request (pop, clear
in-flight, advance dispatch). -/
theorem dmxtri_chunked_response (s : EngineState) (request : RDMRequest)
    (rest : List RDMRequest) (d : List Nat)
    (hq : s.pending_requests = request :: rest)
    (hcb : s.has_rdm_response_callback = true) :
    (handleRemoteRDMResponse s EC_RESPONSE_MORE d =
      some (withMerged s request d EC_RESPONSE_MORE,
        (dispatchRequest (withMerged s request d EC_RESPONSE_MORE)
          request).2)) ∧
    (∀ rc, rc = EC_NO_ERROR ∨ rc = EC_RESPONSE_WAIT →
      handleRemoteRDMResponse s rc d =
        some (retireHeadRequest { s with rdm_response := none } rest
          [Output.deliverResponse (mergedResponse s request d rc)])) ∧
    (∀ rc, rc = EC_NO_ERROR ∨ rc = EC_RESPONSE_WAIT →
      ∃ s2 outs, handleRemoteRDMResponse s rc d = some (s2, outs) ∧
        s2.pending_requests = rest ∧
        s2.rdm_response = none ∧
        s2.rdm_request_pending = (!inDiscoveryMode s && !rest.isEmpty) ∧
        outs.head? =
          some (Output.deliverResponse (mergedResponse s request d rc))) := by
  have h2 : ∀ rc, rc = EC_NO_ERROR ∨ rc = EC_RESPONSE_WAIT →
      handleRemoteRDMResponse s rc d =
        some (retireHeadRequest { s with rdm_response := none } rest
          [Output.deliverResponse (mergedResponse s request d rc)]) := by
    intro rc hrc
    rcases hrc with rfl | rfl <;>
      cases hr : s.rdm_response <;>
        simp +decide [handleRemoteRDMResponse, hq, hr, mergedResponse,
          getResponseWithData, combineResponses, hcb]
  refine ⟨?_, h2, ?_⟩
  · have h1 : handleRemoteRDMResponse s EC_RESPONSE_MORE d =
        some (dispatchRequest (withMerged s request d EC_RESPONSE_MORE)
          request) := by
      cases hr : s.rdm_response <;>
        simp +decide [handleRemoteRDMResponse, hq, hr, withMerged,
          mergedResponse, getResponseWithData, combineResponses]
    rw [h1, dispatchRequest_eta]
  · intro rc hrc
    refine ⟨(retireHeadRequest { s with rdm_response := none } rest
        [Output.deliverResponse (mergedResponse s request d rc)]).1,
      (retireHeadRequest { s with rdm_response := none } rest
        [Output.deliverResponse (mergedResponse s request d rc)]).2,
      ?_, ?_, ?_, ?_, ?_⟩
    · rw [h2 rc hrc]
    · unfold retireHeadRequest
      dsimp only
      rw [maybeSend_pending]
    · unfold retireHeadRequest
      dsimp only
      rw [maybeSend_response]
    · unfold retireHeadRequest
      dsimp only
      rw [maybeSend_flag]
      simp [inDiscoveryMode]
    · rfl

theorem dmxtri_chunked_response_witness :
    sOneInFlight.pending_requests = reqBcast :: [] ∧
    sOneInFlight.has_rdm_response_callback = true ∧
    handleRemoteRDMResponse sOneInFlight EC_RESPONSE_MORE [9] =
      some (withMerged sOneInFlight reqBcast [9] EC_RESPONSE_MORE,
        (dispatchRequest (withMerged sOneInFlight reqBcast [9] EC_RESPONSE_MORE)
          reqBcast).2) :=
  ⟨rfl, rfl, (dmxtri_chunked_response sOneInFlight reqBcast [] [9] rfl rfl).1⟩

/-- Claim C6: a set-filter reply with EC_NO_ERROR updates the cached
manufacturer id to the head request's manufacturer id and sends the
deferred request (for a broadcast GET/SET head a frame is actually put on
the wire); any other code drops the head request without invoking the
response callback for it — the FIFO is popped, the in-flight flag is
cleared, and dispatch advances (the flag is set again exactly when another
request is queued and discovery is idle), with no retry of the dropped
request. -/
theorem dmxtri_set_filter_reply (s : EngineState) (request : RDMRequest)
    (rest : List RDMRequest) (hq : s.pending_requests = request :: rest) :
    (∃ outs, handleSetFilterResponse s EC_NO_ERROR =
        some ({ s with last_esta_id := request.dest.esta_id }, outs) ∧
      outs = (dispatchRequest
        { s with last_esta_id := request.dest.esta_id } request).2 ∧
      outs.all (fun o => !isResponseDelivery o) = true ∧
      (request.dest.isBroadcast = true →
        (request.command_class = RDMCommandClass.SET_COMMAND ∨
          (request.command_class = RDMCommandClass.GET_COMMAND ∧
           request.param_id ≠ PID_QUEUED_MESSAGE)) →
        outs ≠ [])) ∧
    (∀ rc, rc ≠ EC_NO_ERROR →
      ∃ s2 outs, handleSetFilterResponse s rc = some (s2, outs) ∧
        s2.pending_requests = rest ∧
        s2.rdm_request_pending = (!inDiscoveryMode s && !rest.isEmpty) ∧
        outs.all (fun o => !isResponseDelivery o) = true) := by
  constructor
  · refine ⟨(dispatchRequest
        { s with last_esta_id := request.dest.esta_id } request).2,
      ?_, rfl, dispatchRequest_no_delivery _ _, ?_⟩
    · unfold handleSetFilterResponse
      rw [if_pos (by decide)]
      rw [hq]
      dsimp only
      rw [dispatchRequest_eta]
    · intro hbc hcls
      unfold dispatchRequest
      rcases hcls with hset | ⟨hget, hpid⟩
      · simp +decide [hset, hbc]
      · simp +decide [hget, hbc, hpid]
  · intro rc hrc
    unfold handleSetFilterResponse
    rw [if_neg (by simp [hrc])]
    rw [hq]
    dsimp only
    refine ⟨(retireHeadRequest s rest []).1, (retireHeadRequest s rest []).2,
      rfl, ?_, ?_, ?_⟩
    · unfold retireHeadRequest
      dsimp only
      rw [maybeSend_pending]
    · unfold retireHeadRequest
      dsimp only
      rw [maybeSend_flag]
      simp [inDiscoveryMode]
    · unfold retireHeadRequest
      dsimp only
      rw [List.nil_append]
      exact maybeSend_no_delivery _

theorem dmxtri_set_filter_reply_witness :
    sOneInFlightNoCb.pending_requests = reqBcast :: [] ∧
    (∃ outs, handleSetFilterResponse sOneInFlightNoCb EC_NO_ERROR =
        some ({ sOneInFlightNoCb with last_esta_id := reqBcast.dest.esta_id },
          outs) ∧
      outs = (dispatchRequest
        { sOneInFlightNoCb with last_esta_id := reqBcast.dest.esta_id }
        reqBcast).2 ∧
      outs.all (fun o => !isResponseDelivery o) = true ∧
      (reqBcast.dest.isBroadcast = true →
        (reqBcast.command_class = RDMCommandClass.SET_COMMAND ∨
          (reqBcast.command_class = RDMCommandClass.GET_COMMAND ∧
           reqBcast.param_id ≠ PID_QUEUED_MESSAGE)) →
        outs ≠ [])) :=
  ⟨rfl, (dmxtri_set_filter_reply sOneInFlightNoCb reqBcast [] rfl).1⟩

/-- Claim C2: a discovery-status reply with return code EC_NO_ERROR whose
payload reports not_done = 0 and device_count = n cancels the polling
timer, clears the UID-to-index map, sets the remaining counter to n and
issues the first UID fetch; feeding the n fetch replies — each decrementing
the counter regardless of its own success or failure — produces exactly n
UID-fetch frames in total, one UID-set publication (the registered UID-list
callback), and finally resumes request dispatch. -/
theorem dmxtri_discovery_complete_cycle (s : EngineState) (n : Nat)
    (replies : List (Nat × List Nat)) (hn : n < 256)
    (hlen : replies.length = n) (hcb : s.has_uid_set_callback = true) :
    ∃ s1 o1, handleDiscoverStatResponse s EC_NO_ERROR [n, 0] = some (s1, o1) ∧
      s1.rdm_timeout_id = false ∧
      s1.uid_index_map = [] ∧
      s1.uid_count = n ∧
      s1.pending_requests = s.pending_requests ∧
      countFetchUID o1 = (if n = 0 then 0 else 1) ∧
      (1 ≤ n →
        (processUIDReplies s1 replies).1.uid_count = 0 ∧
        (processUIDReplies s1 replies).1.pending_requests =
          s.pending_requests ∧
        countFetchUID o1 + countFetchUID (processUIDReplies s1 replies).2 =
          n ∧
        countUIDPublish (processUIDReplies s1 replies).2 = 1 ∧
        (s.rdm_request_pending = false → s.pending_requests ≠ [] →
          (processUIDReplies s1 replies).1.rdm_request_pending = true)) := by
  by_cases h0 : n = 0
  · subst h0
    refine ⟨{ stopDiscovery s with uid_count := 0, uid_index_map := [] }, [],
      ?_, rfl, rfl, rfl, rfl, by simp [countFetchUID], ?_⟩
    · simp +decide [handleDiscoverStatResponse, discoverStatBody,
        stopDiscovery]
    · intro h1n
      exact absurd h1n (by decide)
  · have hstat : handleDiscoverStatResponse s EC_NO_ERROR [n, 0] =
        some ({ stopDiscovery s with uid_count := n, uid_index_map := [] },
          [Output.sendFrame EXTENDED_COMMAND_LABEL
            [REMOTE_UID_COMMAND_ID, n]]) := by
      simp +decide [handleDiscoverStatResponse, discoverStatBody,
        stopDiscovery, fetchNextUID, h0]
    refine ⟨_, _, hstat, rfl, rfl, rfl, rfl,
      by simp [countFetchUID, List.countP_cons, List.countP_nil, h0], ?_⟩
    intro h1n
    have hrun := processUIDReplies_run replies
      { stopDiscovery s with uid_count := n, uid_index_map := [] }
      (by show n = replies.length; omega)
      (by intro hnil; subst hnil; simp at hlen; omega) rfl
    obtain ⟨r1, r2, r3, r4, r5, r6⟩ := hrun
    refine ⟨r1, r2, ?_, ?_, ?_⟩
    · rw [r4, hlen]
      simp [countFetchUID, List.countP_cons, List.countP_nil]
      omega
    · rw [r5]
      simp [stopDiscovery, hcb]
    · intro hf hp
      exact r6 hf hp

theorem dmxtri_discovery_complete_cycle_witness :
    (2 : Nat) < 256 ∧
    ([(EC_NO_ERROR, [0, 1, 0, 0, 0, 1]), (EC_CONSTRAINT, [])] :
      List (Nat × List Nat)).length = 2 ∧
    sDiscovery.has_uid_set_callback = true ∧
    (∃ s1 o1, handleDiscoverStatResponse sDiscovery EC_NO_ERROR [2, 0] =
        some (s1, o1) ∧
      s1.rdm_timeout_id = false ∧
      s1.uid_index_map = [] ∧
      s1.uid_count = 2 ∧
      s1.pending_requests = sDiscovery.pending_requests ∧
      countFetchUID o1 = (if 2 = 0 then 0 else 1) ∧
      (1 ≤ 2 →
        (processUIDReplies s1
          [(EC_NO_ERROR, [0, 1, 0, 0, 0, 1]),
           (EC_CONSTRAINT, [])]).1.uid_count = 0 ∧
        (processUIDReplies s1
          [(EC_NO_ERROR, [0, 1, 0, 0, 0, 1]),
           (EC_CONSTRAINT, [])]).1.pending_requests =
          sDiscovery.pending_requests ∧
        countFetchUID o1 + countFetchUID (processUIDReplies s1
          [(EC_NO_ERROR, [0, 1, 0, 0, 0, 1]),
           (EC_CONSTRAINT, [])]).2 = 2 ∧
        countUIDPublish (processUIDReplies s1
          [(EC_NO_ERROR, [0, 1, 0, 0, 0, 1]),
           (EC_CONSTRAINT, [])]).2 = 1 ∧
        (sDiscovery.rdm_request_pending = false →
          sDiscovery.pending_requests ≠ [] →
          (processUIDReplies s1
            [(EC_NO_ERROR, [0, 1, 0, 0, 0, 1]),
             (EC_CONSTRAINT, [])]).1.rdm_request_pending = true))) :=
  ⟨by decide, by decide, rfl,
    dmxtri_discovery_complete_cycle sDiscovery 2
      [(EC_NO_ERROR, [0, 1, 0, 0, 0, 1]), (EC_CONSTRAINT, [])]
      (by decide) (by decide) rfl⟩

end DmxTri

namespace DmxBuf

/-- Claim C9 counterexample: the claim says a token parsed above 255 is
clamped to 255, but parsing the single token 266 stores 10 — the low byte
of 266 — exactly as the in-repository test testStringToDmx expects for the
input 266 (slot value 10, not 255). -/
theorem setFromString_token_not_clamped :
    (DmxBuffer.SetFromString emptyDmxBuffer "266").1.contents = [10] ∧
    (DmxBuffer.SetFromString emptyDmxBuffer "266").1.contents ≠ [255] := by
  constructor
  · rfl
  · decide

/-- Claim C9 (amended): SetFromString parses a comma-separated list of
decimal byte values; a token that fails to parse (empty or non-numeric)
yields 0 for its slot, a value parsed above 255 is truncated to its low
byte (reduced modulo 256, not clamped to 255), leading/trailing whitespace
of the whole string is trimmed before tokenizing, an empty string yields a
buffer of length 0, and the call always reports success.  The concrete
vectors are those of DmxBufferTest::testStringToDmx. -/
theorem setFromString_parse_behaviour (b : DmxBuffer) :
    ((DmxBuffer.SetFromString b "").1.Size = 0 ∧
      (DmxBuffer.SetFromString b "").2 = true) ∧
    (DmxBuffer.SetFromString b "1,2,3,4").1.contents = [1, 2, 3, 4] ∧
    (DmxBuffer.SetFromString b "a,b,c,d").1.contents = [0, 0, 0, 0] ∧
    (DmxBuffer.SetFromString b "a,b,c,").1.contents = [0, 0, 0, 0] ∧
    (DmxBuffer.SetFromString b "255,,,10").1.contents = [255, 0, 0, 10] ∧
    (DmxBuffer.SetFromString b " 266,,,10  ").1.contents = [10, 0, 0, 10] ∧
    (∀ input : String, (DmxBuffer.SetFromString b input).2 = true) := by
  refine ⟨⟨?_, ?_⟩, ?_, ?_, ?_, ?_, ?_, ?_⟩
  all_goals first
    | rfl
    | (intro input
       unfold DmxBuffer.SetFromString
       dsimp only
       split <;> rfl)

/-- Claim C10: the very first SetRange on a fresh buffer (one that has
never held data), writing at offset 0, leaves Size() at the full 512-slot
capacity (the write blacks out the whole universe first); after a Reset()
of a previously initialised buffer, a SetRange at offset 0 sets Size() to
exactly the written span. -/
theorem setRange_fresh_buffer_blackout (bytes : List Nat)
    (hlen : bytes.length ≤ DMX_UNIVERSE_SIZE) :
    (DmxBuffer.SetRange emptyDmxBuffer 0 (some bytes) bytes.length).2 =
      true ∧
    (DmxBuffer.SetRange emptyDmxBuffer 0 (some bytes) bytes.length).1.Size =
      DMX_UNIVERSE_SIZE ∧
    (∀ b : DmxBuffer, b.init = true →
      (DmxBuffer.SetRange b.Reset 0 (some bytes) bytes.length).2 = true ∧
      (DmxBuffer.SetRange b.Reset 0 (some bytes) bytes.length).1.Size =
        bytes.length) := by
  refine ⟨rfl, ?_, ?_⟩
  · show min DMX_UNIVERSE_SIZE
        (max DMX_UNIVERSE_SIZE (0 + min bytes.length (DMX_UNIVERSE_SIZE - 0)))
        = DMX_UNIVERSE_SIZE
    simp only [DMX_UNIVERSE_SIZE]
    omega
  · intro b hb
    constructor
    · simp [DmxBuffer.SetRange, DmxBuffer.Reset, hb, DMX_UNIVERSE_SIZE]
    · simp [DmxBuffer.SetRange, DmxBuffer.Reset, DmxBuffer.Size, hb,
        DMX_UNIVERSE_SIZE]
      simp [DMX_UNIVERSE_SIZE] at hlen
      omega

theorem setRange_fresh_buffer_blackout_witness :
    ([1, 2, 3, 4, 5] : List Nat).length ≤ DMX_UNIVERSE_SIZE ∧
    ((DmxBuffer.SetRange emptyDmxBuffer 0 (some [1, 2, 3, 4, 5])
        ([1, 2, 3, 4, 5] : List Nat).length).2 = true ∧
      (DmxBuffer.SetRange emptyDmxBuffer 0 (some [1, 2, 3, 4, 5])
        ([1, 2, 3, 4, 5] : List Nat).length).1.Size = DMX_UNIVERSE_SIZE ∧
      (∀ b : DmxBuffer, b.init = true →
        (DmxBuffer.SetRange b.Reset 0 (some [1, 2, 3, 4, 5])
          ([1, 2, 3, 4, 5] : List Nat).length).2 = true ∧
        (DmxBuffer.SetRange b.Reset 0 (some [1, 2, 3, 4, 5])
          ([1, 2, 3, 4, 5] : List Nat).length).1.Size =
          ([1, 2, 3, 4, 5] : List Nat).length)) :=
  ⟨by decide, setRange_fresh_buffer_blackout [1, 2, 3, 4, 5] (by decide)⟩

end DmxBuf
